import Mathlib

/- Verification development for the adaptive web-scraping engine in
`src/shopping.py` and the post-processing utility `src/deduplicate_jsonl.py`.
All definitions below are shallow embeddings of the corresponding Python code;
line numbers in the doc comments refer to those two files. -/

set_option maxHeartbeats 1000000

/-! Python string primitives used by the embedded code. -/

/-- Truthiness of an optional Python string (`None` and `""` are falsy,
every other string is truthy). Used wherever the source writes
`if some_string:` on a value that may be `None`. -/
def pyTruthy : Option String → Bool
  | none => false
  | some s => decide (s ≠ "")

/-- Helper for `pySplitWs`: walks the character list, accumulating the
current token in `acc` (reversed); whitespace ends the current token. -/
def splitWsAux : List Char → List Char → List String
  | [], acc => if acc.isEmpty then [] else [String.mk acc.reverse]
  | c :: cs, acc =>
    if c.isWhitespace then
      if acc.isEmpty then splitWsAux cs [] else String.mk acc.reverse :: splitWsAux cs []
    else splitWsAux cs (c :: acc)

/-- Python's no-argument `str.split()`: split on runs of whitespace, never
producing empty tokens. Models `classes_str.split()` (shopping.py line 254). -/
def pySplitWs (s : String) : List String := splitWsAux s.toList []

/-- The token list of a `class` attribute string:
`filter(None, classes_str.split())` (shopping.py line 254). -/
def classTokens (s : String) : List String :=
  (pySplitWs s).filter (fun t => t ≠ "")

/-- Lexicographic comparison of character lists by code point; this is the
order Python's `sorted` uses on strings. -/
def lexLeChars : List Char → List Char → Bool
  | [], _ => true
  | _ :: _, [] => false
  | a :: as, b :: bs => if a = b then lexLeChars as bs else decide (a < b)

/-- The string order underlying Python's `sorted` on a list of `str`. -/
def strLe (a b : String) : Prop := lexLeChars a.toList b.toList = true

instance : DecidableRel strLe :=
  fun a b => inferInstanceAs (Decidable (lexLeChars a.toList b.toList = true))

lemma lexLeChars_total (as bs : List Char) :
    lexLeChars as bs = true ∨ lexLeChars bs as = true := by
  induction as generalizing bs with
  | nil => left; simp [lexLeChars]
  | cons a as ih =>
    cases bs with
    | nil => right; simp [lexLeChars]
    | cons b bs' =>
      by_cases hab : a = b
      · subst hab
        simpa [lexLeChars] using ih bs'
      · rcases lt_or_gt_of_ne hab with h | h
        · left; simp [lexLeChars, hab, h]
        · right; simp [lexLeChars, Ne.symm hab, h]

lemma lexLeChars_trans (as bs cs : List Char) (h1 : lexLeChars as bs = true)
    (h2 : lexLeChars bs cs = true) : lexLeChars as cs = true := by
  induction as generalizing bs cs with
  | nil => simp [lexLeChars]
  | cons a as ih =>
    cases bs with
    | nil => simp [lexLeChars] at h1
    | cons b bs' =>
      cases cs with
      | nil => simp [lexLeChars] at h2
      | cons c cs' =>
        by_cases hab : a = b <;> by_cases hbc : b = c
        · subst hab; subst hbc
          simp only [lexLeChars, if_pos rfl] at h1 h2 ⊢
          exact ih bs' cs' h1 h2
        · subst hab
          simp only [lexLeChars, if_pos rfl] at h1
          simp only [lexLeChars, if_neg hbc] at h2
          have hac : a ≠ c := hbc
          simp [lexLeChars, hac]
          exact of_decide_eq_true h2
        · subst hbc
          simp only [lexLeChars, if_neg hab] at h1
          have hac : a ≠ b := hab
          simp [lexLeChars, hac]
          exact of_decide_eq_true h1
        · simp only [lexLeChars, if_neg hab] at h1
          simp only [lexLeChars, if_neg hbc] at h2
          have hlt : a < c := lt_trans (of_decide_eq_true h1) (of_decide_eq_true h2)
          simp [lexLeChars, ne_of_lt hlt, hlt]

lemma lexLeChars_antisymm (as bs : List Char) (h1 : lexLeChars as bs = true)
    (h2 : lexLeChars bs as = true) : as = bs := by
  induction as generalizing bs with
  | nil =>
    cases bs with
    | nil => rfl
    | cons b bs' => simp [lexLeChars] at h2
  | cons a as ih =>
    cases bs with
    | nil => simp [lexLeChars] at h1
    | cons b bs' =>
      by_cases hab : a = b
      · subst hab
        simp only [lexLeChars, if_pos rfl] at h1 h2
        exact congrArg (a :: ·) (ih bs' h1 h2)
      · simp only [lexLeChars, if_neg hab] at h1
        simp only [lexLeChars, if_neg (Ne.symm hab)] at h2
        exact absurd (of_decide_eq_true h2) (lt_asymm (of_decide_eq_true h1))

instance : IsTotal String strLe := ⟨fun a b => lexLeChars_total a.toList b.toList⟩

instance : IsTrans String strLe :=
  ⟨fun a b c h1 h2 => lexLeChars_trans a.toList b.toList c.toList h1 h2⟩

instance : IsAntisymm String strLe := by
  refine ⟨fun a b h1 h2 => ?_⟩
  have h := lexLeChars_antisymm a.toList b.toList h1 h2
  cases a; cases b
  simp only [String.toList] at h
  exact congrArg String.mk h

/-- The class signature of an element:
`tuple(sorted(filter(None, classes_str.split())))` (shopping.py line 254),
with Python's stable `sorted` modelled by insertion sort. -/
def classSignature (s : String) : List String :=
  List.insertionSort strLe (classTokens s)

/-- C7 counterexample: the two class strings "a a" and "a" have the same SET
of class tokens (their deduplicated token lists coincide), yet their computed
signatures differ, because the source sorts the token list without removing
duplicates. This refutes the claim that signature equality coincides with
token-set equality. -/
theorem C7_counterexample :
    (classTokens "a a").dedup = (classTokens "a").dedup ∧
      classSignature "a a" ≠ classSignature "a" := by
  refine ⟨by decide, by decide⟩

/-- C7 (amended): two class attribute strings produce the same signature if
and only if their token lists are permutations of each other (equal as
multisets); in particular permuting the tokens of a class attribute leaves
the signature unchanged. Set equality is not sufficient: duplicated tokens
are kept by the sort. -/
theorem C7_amended (s₁ s₂ : String) :
    classSignature s₁ = classSignature s₂ ↔ (classTokens s₁).Perm (classTokens s₂) := by
  constructor
  · intro h
    have p₁ := List.perm_insertionSort strLe (classTokens s₁)
    have p₂ := List.perm_insertionSort strLe (classTokens s₂)
    have h' : List.insertionSort strLe (classTokens s₁) =
        List.insertionSort strLe (classTokens s₂) := h
    exact p₁.symm.trans (by rw [h']; exact p₂)
  · intro h
    have p₁ := List.perm_insertionSort strLe (classTokens s₁)
    have p₂ := List.perm_insertionSort strLe (classTokens s₂)
    exact List.eq_of_perm_of_sorted (p₁.trans (h.trans p₂.symm))
      (List.sorted_insertionSort strLe (classTokens s₁))
      (List.sorted_insertionSort strLe (classTokens s₂))

/-- C7 witness: a concrete permutation instance for the amended theorem:
"btn card" and "card btn" yield equal signatures. -/
theorem C7_witness : classSignature "btn card" = classSignature "card btn" :=
  (C7_amended "btn card" "card btn").mpr (by decide)

/-! List Discovery Orchestrator: `ProductScraper.find_products`
(shopping.py lines 239-361). The per-container extraction is abstracted by
its observable outcome; everything the orchestrator does with those outcomes
(dedup by href, the consecutive-failure counter, the scroll-retry gate and
the candidate success check) is modelled exactly as written. -/

/-- Observable outcome of one container of a candidate class signature:
the first call to `_get_main_link_from_container` (line 290) either yields a
link carrying the given href, or fails; on failure, the scroll-retry loop
(lines 302-332, attempted only when the previous container succeeded) either
eventually yields a link (`retryOk`) or exhausts its five attempts (`fail`). -/
inductive COutcome where
  | ok (href : Option String)
  | retryOk (href : Option String)
  | fail
deriving DecidableEq, Repr

/-- Loop state of the container loop of `find_products` (lines 285-348):
the consecutive-failure counter (line 285), whether `last_main_link` is set
(lines 287/299/338/343), the deduplicated href list accumulated so far
(lines 282-283, list and set updated together), and how many containers have
been entered. -/
structure RunState where
  consecutive : Nat
  lastOk : Bool
  links : List String
  processed : Nat
deriving DecidableEq, Repr

/-- Href dedup of lines 296-298 / 325-327: a link is recorded only when its
href is truthy and not yet seen for this candidate. -/
def addHref (ls : List String) : Option String → List String
  | none => ls
  | some u => if u = "" ∨ u ∈ ls then ls else ls ++ [u]

/-- Successful container (lines 293-299 and 322-329): reset the counter,
record the href, remember the success. -/
def succStep (s : RunState) (h : Option String) : RunState :=
  ⟨0, true, addHref s.links h, s.processed + 1⟩

/-- Failed container (lines 334-343): increment the counter, clear
`last_main_link`. -/
def failStep (s : RunState) : RunState :=
  ⟨s.consecutive + 1, false, s.links, s.processed + 1⟩

/-- One iteration of the container loop (lines 288-343). A `retryOk` outcome
only counts as a success when the previous container succeeded: the scroll
retry is gated on `last_main_link is not None` (line 302); otherwise the
container counts as a plain failure (lines 339-343). -/
def step (s : RunState) : COutcome → RunState
  | .ok h => succStep s h
  | .retryOk h => if s.lastOk then succStep s h else failStep s
  | .fail => failStep s

/-- The container loop with its abort check (lines 345-347): after each
container, if the consecutive-failure counter has reached 2, remaining
containers are skipped. -/
def runFrom (s : RunState) : List COutcome → RunState
  | [] => s
  | c :: cs =>
    let s' := step s c
    if 2 ≤ s'.consecutive then s' else runFrom s' cs

/-- Initial loop state (lines 282-287). -/
def initRun : RunState := ⟨0, false, [], 0⟩

/-- The whole container loop for one candidate signature (lines 281-348). -/
def candidateRun (cs : List COutcome) : RunState := runFrom initRun cs

/-- Minimum number of containers and of unique links (line 240). -/
def min_products_for_list : Nat := 10

/-- The candidate loop of `find_products` (lines 271-361): candidates are
tried in order; a candidate with fewer containers than the minimum is
skipped (lines 281/354-355); otherwise its container loop runs, and only
after that loop ends (normally or via the consecutive-failure break) is the
accumulated link count compared with the threshold (lines 350-353); the
first candidate passing that check is returned, otherwise `None`
(line 361). Links are identified by their hrefs. -/
def find_products : List (List COutcome) → Option (List String)
  | [] => none
  | c :: rest =>
    if min_products_for_list ≤ c.length then
      if min_products_for_list ≤ (candidateRun c).links.length then
        some (candidateRun c).links
      else find_products rest
    else find_products rest

/-- A candidate whose twelve containers all succeed with distinct hrefs. -/
def twelveOk : List COutcome :=
  [.ok (some "u01"), .ok (some "u02"), .ok (some "u03"), .ok (some "u04"),
   .ok (some "u05"), .ok (some "u06"), .ok (some "u07"), .ok (some "u08"),
   .ok (some "u09"), .ok (some "u10"), .ok (some "u11"), .ok (some "u12")]

/-- C1 counterexample: with twelve all-successful containers the unique-link
set reaches the threshold (10) at the tenth container, yet the orchestrator
does not return there: it processes all twelve containers and returns a
twelve-link set. The success check only runs after the container loop ends
(lines 350-353), so there is no immediate return upon reaching the
threshold, refuting the claim as stated. -/
theorem C1_counterexample :
    (candidateRun twelveOk).processed = 12 ∧
      find_products [twelveOk] =
        some ["u01", "u02", "u03", "u04", "u05", "u06", "u07", "u08", "u09",
              "u10", "u11", "u12"] ∧
      ¬ (candidateRun twelveOk).processed ≤ min_products_for_list := by
  refine ⟨by decide, by decide, by decide⟩

/-- C1 (amended): the success rule is checked only after the candidate's
container loop has finished: if the candidate has at least the minimum
number of containers and the link set accumulated by the finished loop
reaches the minimum threshold, that link set is returned and no further
candidate signature is tried (the result does not depend on the remaining
candidates); the returned set may exceed the threshold. -/
theorem C1_amended (c : List COutcome) (rest : List (List COutcome))
    (h1 : min_products_for_list ≤ c.length)
    (h2 : min_products_for_list ≤ (candidateRun c).links.length) :
    find_products (c :: rest) = some (candidateRun c).links := by
  simp [find_products, h1, h2]

/-- C1 witness: the amended theorem applied to the twelve-success candidate
with an arbitrary further candidate, which is never examined. -/
theorem C1_witness :
    find_products [twelveOk, []] = some (candidateRun twelveOk).links :=
  C1_amended twelveOk [[]] (by decide) (by decide)

/-- A candidate with thirteen containers: ten distinct successes, then two
consecutive failures (triggering the abort), then one more container that the
abort rule prevents from being processed. -/
def abortedTen : List COutcome :=
  [.ok (some "u01"), .ok (some "u02"), .ok (some "u03"), .ok (some "u04"),
   .ok (some "u05"), .ok (some "u06"), .ok (some "u07"), .ok (some "u08"),
   .ok (some "u09"), .ok (some "u10"), .fail, .fail, .ok (some "u11")]

/-- C3 counterexample: a candidate abandoned by the consecutive-failure abort
rule (counter reaches 2, the thirteenth container is never processed) is
nevertheless returned as the successful result, because after the break the
code still runs the threshold check on the links accumulated so far
(lines 350-353). This refutes the claim that an aborted candidate is never
returned as a success. -/
theorem C3_counterexample :
    2 ≤ (candidateRun abortedTen).consecutive ∧
      (candidateRun abortedTen).processed = 12 ∧
      find_products [abortedTen] =
        some ["u01", "u02", "u03", "u04", "u05", "u06", "u07", "u08", "u09",
              "u10"] := by
  refine ⟨by decide, by decide, by decide⟩

/-- C3 (amended): abandoning a candidate by the consecutive-failure abort
rule stops the processing of its remaining containers, but the candidate is
still returned as a success when the links accumulated before the abort
reach the threshold; the orchestrator moves on to the next candidate exactly
when the accumulated link set is below the threshold. -/
theorem C3_amended (c : List COutcome) (rest : List (List COutcome))
    (h : (candidateRun c).links.length < min_products_for_list) :
    find_products (c :: rest) = find_products rest := by
  by_cases hc : min_products_for_list ≤ c.length
  · simp [find_products, hc, Nat.not_le.mpr h]
  · simp [find_products, hc]

/-- C3 witness: a candidate aborted with no links accumulated is skipped and
discovery falls through to the remaining candidates. -/
theorem C3_witness :
    find_products [[COutcome.fail, COutcome.fail], twelveOk] =
      find_products [twelveOk] :=
  C3_amended [COutcome.fail, COutcome.fail] [twelveOk] (by decide)

/-- C4: the consecutive-failure abort. First conjunct: the moment the
counter reaches 2 after a container, the loop stops at that container (the
remaining outcomes are never consulted). Second conjunct: a success resets
the counter. Third conjunct: a failure whose scroll-retry cycle is exhausted
(or that follows a failure) increments the counter by one. Fourth conjunct:
for the outcome sequence [success, fail, fail] exactly three containers are
processed whatever comes after them. -/
theorem C4_consecutive_failure_abort :
    (∀ (s : RunState) (c : COutcome) (cs : List COutcome),
        2 ≤ (step s c).consecutive → runFrom s (c :: cs) = step s c) ∧
      (∀ (s : RunState) (h : Option String), (step s (.ok h)).consecutive = 0) ∧
      (∀ s : RunState, (step s .fail).consecutive = s.consecutive + 1) ∧
      (∀ (h : Option String) (rest : List COutcome),
        (runFrom initRun (.ok h :: .fail :: .fail :: rest)).processed = 3) := by
  refine ⟨?_, ?_, ?_, ?_⟩
  · intro s c cs h
    simp [runFrom, h]
  · intro s h
    simp [step, succStep]
  · intro s
    simp [step, failStep]
  · intro h rest
    simp [runFrom, step, succStep, failStep, initRun]

/-- C4 witness: the abort theorem applied at concrete inputs: the loop state
after a container that brings the counter to 2 halts the loop, and the
concrete sequence [success, fail, fail, success] processes three containers. -/
theorem C4_witness :
    runFrom ⟨1, false, [], 2⟩ (.fail :: [.ok (some "v")]) =
        step ⟨1, false, [], 2⟩ .fail ∧
      (runFrom initRun [.ok (some "u"), .fail, .fail, .ok (some "v")]).processed = 3 :=
  ⟨C4_consecutive_failure_abort.1 ⟨1, false, [], 2⟩ .fail [.ok (some "v")] (by decide),
   C4_consecutive_failure_abort.2.2.2 (some "u") [.ok (some "v")]⟩

/-! Session Controller window-handle bookkeeping: one iteration of the
per-record loop of `ProductScraper.search_and_scrape`
(shopping.py lines 585-701). Window handles are numbers; the state records
the main handle (captured at line 626), the handle of an open popup (if any)
and the active handle. The iteration body exits in one of three ways, and
each exit path runs the window operations the code performs there. -/

/-- Window-handle state of the browser session during one record iteration:
`mainH` is `main_window` (line 626), `popup` is the handle of the second
window when one is open, `activeH` is `driver.current_window_handle`. -/
structure WinState where
  mainH : Nat
  popup : Option Nat
  activeH : Nat
deriving DecidableEq, Repr

/-- Exit paths of the per-record try block (lines 588-701): normal
completion (lines 671-685), the stale-reference abort
(`except StaleElementReferenceException`, lines 687-689), or any other
exception (lines 690-701), in which case the handler reads the Python
variable `new_window` — carried here, since it may be `None` even though a
popup is open (the exception may fire between the click that opened the
popup and line 639). -/
inductive RecordExit where
  | success
  | staleFault
  | otherFault (newWindowVar : Option Nat)
deriving DecidableEq, Repr

/-- Window operations performed on each exit path of one record iteration.
Success (lines 672-681): if a popup was detected, close it and switch to the
main handle, else `driver.back()` (window state unchanged). Stale abort
(lines 687-689): `break` with no window operation at all. Other fault
(lines 692-698): close-and-switch only when `new_window` is set and is the
active handle; otherwise at most `driver.back()` (window state unchanged). -/
def record_iteration_exit (s : WinState) : RecordExit → WinState
  | .success =>
    match s.popup with
    | some _ => ⟨s.mainH, none, s.mainH⟩
    | none => s
  | .staleFault => s
  | .otherFault nw =>
    match nw with
    | some w =>
      if s.activeH = w then
        ⟨s.mainH, if s.popup = some w then none else s.popup, s.mainH⟩
      else s
    | none => s

/-- C2 counterexample: a record iteration that opened a popup (handle 1,
main handle 0, active context the popup) and exits through the
stale-reference abort path leaves the popup open and the active context on
the popup: the stale handler (lines 687-689) performs no popup close and no
switch back to the main handle, refuting the claim that every exit path
restores the main window. -/
theorem C2_counterexample :
    (record_iteration_exit ⟨0, some 1, 1⟩ .staleFault = ⟨0, some 1, 1⟩) ∧
      ¬ ((record_iteration_exit ⟨0, some 1, 1⟩ .staleFault).popup = none ∧
         (record_iteration_exit ⟨0, some 1, 1⟩ .staleFault).activeH = 0) := by
  refine ⟨by decide, by decide⟩

/-- C2 (amended): the popup is closed and the main handle restored on the
success path whenever a popup is open, and on the generic-fault path exactly
when the `new_window` variable is set to the open popup and the popup is
still the active context; the stale-reference abort path performs no window
restoration at all (the state is returned unchanged), and a generic fault
whose `new_window` variable was never assigned likewise leaves the popup
open. -/
theorem C2_amended :
    (∀ s : WinState, s.popup.isSome →
        (record_iteration_exit s .success).popup = none ∧
          (record_iteration_exit s .success).activeH = s.mainH) ∧
      (∀ (s : WinState) (w : Nat), s.popup = some w → s.activeH = w →
        (record_iteration_exit s (.otherFault (some w))).popup = none ∧
          (record_iteration_exit s (.otherFault (some w))).activeH = s.mainH) ∧
      (∀ s : WinState, record_iteration_exit s .staleFault = s) ∧
      (∀ s : WinState, record_iteration_exit s (.otherFault none) = s) := by
  refine ⟨?_, ?_, ?_, ?_⟩
  · intro s hs
    rcases s with ⟨m, p, a⟩
    cases p with
    | none => simp at hs
    | some w => simp [record_iteration_exit]
  · intro s w hp ha
    rcases s with ⟨m, p, a⟩
    simp only at hp ha
    subst hp; subst ha
    simp [record_iteration_exit]
  · intro s; rfl
  · intro s; rfl

/-- C2 witness: the amended theorem at the concrete state with main handle
0, popup 1 and active context 1, for the success path and for the
generic-fault path with `new_window` set to the popup. -/
theorem C2_witness :
    ((record_iteration_exit ⟨0, some 1, 1⟩ .success).popup = none ∧
        (record_iteration_exit ⟨0, some 1, 1⟩ .success).activeH = 0) ∧
      ((record_iteration_exit ⟨0, some 1, 1⟩ (.otherFault (some 1))).popup = none ∧
        (record_iteration_exit ⟨0, some 1, 1⟩ (.otherFault (some 1))).activeH = 0) :=
  ⟨C2_amended.1 ⟨0, some 1, 1⟩ (by decide),
   C2_amended.2.1 ⟨0, some 1, 1⟩ 1 rfl rfl⟩

/-! Pagination Navigator click-and-verify:
`ProductScraper.try_next_page_button` (shopping.py lines 746-804). -/

/-- Outcome of the click attempted on a candidate pagination control:
the direct click completes and a URL is read after the settle delay
(lines 773-777); or the direct click is intercepted and the programmatic
click either completes with an observed URL or raises (lines 785-801); or
the click raises some other exception (lines 802-804). -/
inductive ClickCycle where
  | completed (newUrl : String)
  | interceptedThen (js : Option String)
  | failed
deriving DecidableEq, Repr

/-- The URL observed after the click, when a click-and-verify cycle
completed; no URL is observed on the exception paths. -/
def observedUrl : ClickCycle → Option String
  | .completed u => some u
  | .interceptedThen (some u) => some u
  | .interceptedThen none => none
  | .failed => none

/-- `try_next_page_button` (lines 746-804): an already-tried button is
skipped (lines 764-766); otherwise the click runs and the verdict is the
comparison of the URL observed after the click with the URL captured before
it (lines 777-783 for the direct click, 792-798 for the programmatic one);
every exception path reports failure (lines 799-804). -/
def try_next_page_button (alreadyTried : Bool) (currentUrl : String)
    (r : ClickCycle) : Bool × String :=
  if alreadyTried then (false, currentUrl)
  else
    match r with
    | .completed u => if u ≠ currentUrl then (true, u) else (false, currentUrl)
    | .interceptedThen (some u) =>
      if u ≠ currentUrl then (true, u) else (false, currentUrl)
    | .interceptedThen none => (false, currentUrl)
    | .failed => (false, currentUrl)

/-- C5: the pagination verdict is URL comparison and nothing else: an
attempt reports success exactly when a URL was observed after the click and
it differs from the URL captured before the click (so an unchanged URL is
always failure and a completed cycle with a changed URL is always success);
moreover two click cycles with the same observed URL always receive the same
verdict, so nothing besides the URLs (in particular, no DOM content)
contributes. -/
theorem C5_url_change_verdict :
    ∀ (t : Bool) (cur : String) (r r' : ClickCycle),
      ((try_next_page_button t cur r).fst = true ↔
        (t = false ∧ ∃ u, observedUrl r = some u ∧ u ≠ cur)) ∧
      (observedUrl r = observedUrl r' →
        try_next_page_button t cur r = try_next_page_button t cur r') := by
  intro t cur r r'
  constructor
  · cases t with
    | true => simp [try_next_page_button]
    | false =>
      cases r with
      | completed u =>
        by_cases h : u = cur <;> simp [try_next_page_button, observedUrl, h]
      | interceptedThen js =>
        cases js with
        | none => simp [try_next_page_button, observedUrl]
        | some u =>
          by_cases h : u = cur <;> simp [try_next_page_button, observedUrl, h]
      | failed => simp [try_next_page_button, observedUrl]
  · intro hobs
    cases t with
    | true => simp [try_next_page_button]
    | false =>
      cases r with
      | completed u =>
        cases r' with
        | completed u' => simp [observedUrl] at hobs; subst hobs; rfl
        | interceptedThen js =>
          cases js with
          | some u' =>
            simp [observedUrl] at hobs; subst hobs
            simp [try_next_page_button]
          | none => simp [observedUrl] at hobs
        | failed => simp [observedUrl] at hobs
      | interceptedThen js =>
        cases js with
        | some u =>
          cases r' with
          | completed u' =>
            simp [observedUrl] at hobs; subst hobs
            simp [try_next_page_button]
          | interceptedThen js' =>
            cases js' with
            | some u' => simp [observedUrl] at hobs; subst hobs; rfl
            | none => simp [observedUrl] at hobs
          | failed => simp [observedUrl] at hobs
        | none =>
          cases r' with
          | completed u' => simp [observedUrl] at hobs
          | interceptedThen js' =>
            cases js' with
            | some u' => simp [observedUrl] at hobs
            | none => rfl
          | failed => rfl
      | failed =>
        cases r' with
        | completed u' => simp [observedUrl] at hobs
        | interceptedThen js' =>
          cases js' with
          | some u' => simp [observedUrl] at hobs
          | none => rfl
        | failed => rfl

/-- C5 witness: at the concrete URLs of the spec's example, a changed URL is
reported as success, and the direct-click cycle and the programmatic-click
cycle observing the same URL get the same verdict. -/
theorem C5_witness :
    (try_next_page_button false "https://s/page=1" (.completed "https://s/page=2")).fst
        = true ∧
      try_next_page_button false "https://s/page=1" (.completed "https://s/page=2") =
        try_next_page_button false "https://s/page=1"
          (.interceptedThen (some "https://s/page=2")) :=
  ⟨(C5_url_change_verdict false "https://s/page=1" (.completed "https://s/page=2")
      (.completed "https://s/page=2")).1.mpr
      ⟨rfl, "https://s/page=2", rfl, by decide⟩,
   (C5_url_change_verdict false "https://s/page=1" (.completed "https://s/page=2")
      (.interceptedThen (some "https://s/page=2"))).2 rfl⟩

/-! Container Link Extractor: `ProductScraper._get_main_link_from_container`
(shopping.py lines 169-210) with `_is_reasonable_size` (lines 212-237). -/

/-- A descendant anchor of a container, by the attributes the extractor
reads: visibility, href, length of the stripped visible text, length of the
title attribute, and the bounding-box width and height. -/
structure Anchor where
  visible : Bool
  href : Option String
  textLen : Nat
  titleLen : Nat
  width : Nat
  height : Nat
deriving DecidableEq, Repr

/-- Helper for `strContains`: does `pat` occur starting at some position? -/
def strContainsAux (pat : List Char) : List Char → Bool
  | [] => pat.isEmpty
  | c :: rest => pat.isPrefixOf (c :: rest) || strContainsAux pat rest

/-- Python's substring test `pat in s`. -/
def strContains (s pat : String) : Bool := strContainsAux pat.toList s.toList

/-- The href filter of line 186: the href must be present, truthy, and not
contain the no-op placeholder "javascript:void(0)". -/
def hrefOk : Option String → Bool
  | none => false
  | some u => decide (u ≠ "") && !(strContains u "javascript:void(0)")

/-- `_is_reasonable_size` (lines 212-237): invisible elements fail; an
element smaller than 40x40 passes only when it is checked as a link whose
parent container exceeds 50x50; otherwise it passes. -/
def is_reasonable_size (visible : Bool) (w h : Nat) (checkParentAsLink : Bool)
    (pw ph : Nat) : Bool :=
  if !visible then false
  else if w < 40 || h < 40 then
    checkParentAsLink && decide (50 < pw) && decide (50 < ph)
  else true

/-- The candidate filter of lines 183-196: a descendant anchor qualifies
when it is visible with an acceptable href and has significant text or title
(length > 5) or a reasonable size relative to the container `pw` x `ph`. -/
def anchorQualifies (pw ph : Nat) (a : Anchor) : Bool :=
  a.visible && hrefOk a.href &&
    (decide (5 < a.textLen) || decide (5 < a.titleLen) ||
      is_reasonable_size a.visible a.width a.height true pw ph)

/-- The descending sort order of line 199: by stripped text length first,
then by bounding-box area; `linkGE a b` means `a` may precede `b`. -/
def linkGE (a b : Anchor) : Prop :=
  b.textLen < a.textLen ∨
    (a.textLen = b.textLen ∧ b.width * b.height ≤ a.width * a.height)

instance : DecidableRel linkGE := fun a b => by unfold linkGE; infer_instance

instance : IsTotal Anchor linkGE := ⟨by intro a b; unfold linkGE; omega⟩

instance : IsTrans Anchor linkGE := ⟨by intro a b c; unfold linkGE; omega⟩

/-- A container as the extractor sees it: whether the element is itself an
`a` tag, its own href and visibility (for the priority-1 branch of
lines 172-176), its bounding box (the parent box for the size fallback), and
its descendant anchors in document order. -/
structure Container where
  tag_is_anchor : Bool
  selfHref : Option String
  selfVisible : Bool
  width : Nat
  height : Nat
  anchors : List Anchor
deriving DecidableEq, Repr

/-- Result of the extractor: the container itself (priority 1) or one of its
descendant anchors (priority 3). -/
inductive MainLink where
  | selfLink
  | childLink (a : Anchor)
deriving DecidableEq, Repr

/-- `_get_main_link_from_container` (lines 169-210): if the container is
itself a visible anchor with an href it is returned (lines 172-176);
otherwise the qualifying descendant anchors (lines 183-196) are sorted
descending by (text length, area) with Python's stable sort (line 199) and
the first entry is returned (line 201); with no qualifying anchor the result
is `None` (line 210). -/
def _get_main_link_from_container (c : Container) : Option MainLink :=
  if c.tag_is_anchor && pyTruthy c.selfHref && c.selfVisible then some .selfLink
  else
    match List.insertionSort linkGE
        (c.anchors.filter (anchorQualifies c.width c.height)) with
    | [] => none
    | a :: _ => some (.childLink a)

/-- C8: for a container that is not itself a visible anchor, whenever one
qualifying descendant anchor has strictly greater visible-text length than
every other qualifying anchor, the extractor returns exactly that anchor,
whatever order the anchors are enumerated in (any permutation of the
descendant list gives the same result). -/
theorem C8_strict_max_selected
    (tagA selfV : Bool) (selfH : Option String) (w h : Nat)
    (l₁ l₂ : List Anchor) (a : Anchor)
    (hself : (tagA && pyTruthy selfH && selfV) = false)
    (hperm : l₁.Perm l₂)
    (hqa : anchorQualifies w h a = true)
    (hmem : a ∈ l₁)
    (hmax : ∀ b ∈ l₁, anchorQualifies w h b = true → b ≠ a → b.textLen < a.textLen) :
    _get_main_link_from_container ⟨tagA, selfH, selfV, w, h, l₂⟩ =
      some (.childLink a) := by
  have hcond : ¬ ((tagA && pyTruthy selfH && selfV) = true) := by simp [hself]
  simp only [_get_main_link_from_container]
  rw [if_neg hcond]
  have hamem₂ : a ∈ l₂.filter (anchorQualifies w h) :=
    List.mem_filter.mpr ⟨hperm.subset hmem, hqa⟩
  have hsorted := List.sorted_insertionSort linkGE (l₂.filter (anchorQualifies w h))
  have hpermS := List.perm_insertionSort linkGE (l₂.filter (anchorQualifies w h))
  have haS : a ∈ List.insertionSort linkGE (l₂.filter (anchorQualifies w h)) :=
    hpermS.mem_iff.mpr hamem₂
  cases hE : List.insertionSort linkGE (l₂.filter (anchorQualifies w h)) with
  | nil => rw [hE] at haS; exact absurd haS (List.not_mem_nil a)
  | cons b tl =>
    have hb : b = a := by
      by_cases hba : b = a
      · exact hba
      · exfalso
        have hbmem : b ∈ l₂.filter (anchorQualifies w h) :=
          hpermS.subset (hE ▸ List.mem_cons_self b tl)
        have hbq : anchorQualifies w h b = true := (List.mem_filter.mp hbmem).2
        have hbl₁ : b ∈ l₁ := hperm.symm.subset (List.mem_filter.mp hbmem).1
        have hlt : b.textLen < a.textLen := hmax b hbl₁ hbq hba
        rcases List.mem_cons.mp (hE ▸ haS) with h1 | h1
        · exact hba h1.symm
        · have hrel : linkGE b a := List.rel_of_sorted_cons (hE ▸ hsorted) a h1
          unfold linkGE at hrel
          omega
    rw [hb]


/-- A qualifying anchor with visible-text length 10. -/
def anchorTen : Anchor := ⟨true, some "https://x/a", 10, 0, 100, 100⟩

/-- A qualifying anchor with visible-text length 3 (kept by the
reasonable-size fallback). -/
def anchorThree : Anchor := ⟨true, some "https://x/b", 3, 0, 100, 100⟩

/-- C8 witness: with the two qualifying anchors of text lengths 10 and 3,
enumerated in the opposite order, the length-10 anchor is selected. -/
theorem C8_witness :
    _get_main_link_from_container
        ⟨false, none, false, 200, 200, [anchorThree, anchorTen]⟩ =
      some (.childLink anchorTen) :=
  C8_strict_max_selected false false none 200 200 [anchorTen, anchorThree]
    [anchorThree, anchorTen] anchorTen (by decide) (by decide) (by decide)
    (by decide) (by decide)

/-! Extraction Fallback Gateway: `extract_with_deepseek`
(shopping.py lines 29-88), and the record produced by
`ProductScraper.extract_product_info` (lines 419-536). -/

/-- Python's `str.strip()`: whitespace removed from both ends. -/
def pyStrip (s : String) : String :=
  String.mk (((s.toList.dropWhile Char.isWhitespace).reverse.dropWhile
    Char.isWhitespace).reverse)

/-- Python's `str.lower()` on the characters of the string. -/
def pyLower (s : String) : String := String.mk (s.toList.map Char.toLower)

/-- Outcome of the external API call made inside the try block of
`extract_with_deepseek`: the call raises (caught at lines 86-88), returns a
falsy response or one with no choices (lines 82-84), or returns a message
content (line 74). -/
inductive ApiOutcome where
  | raised
  | emptyResponse
  | content (s : String)
deriving DecidableEq, Repr

/-- The target field argument of `extract_with_deepseek`: `'price'`,
`'title'`, or anything else (rejected at lines 56-57). -/
inductive TargetField where
  | price
  | title
  | other
deriving DecidableEq, Repr

/-- The try block of `extract_with_deepseek` (lines 59-84): an exception
propagates, an empty response gives no value, and a content answer is
stripped and discarded when it is empty or the literal answer "none"
(case-insensitively, lines 74-81). -/
def deepseekTryBody : ApiOutcome → Except Unit (Option String)
  | .raised => .error ()
  | .emptyResponse => .ok none
  | .content s =>
    let t := pyStrip s
    if pyLower t = "none" ∨ t = "" then .ok none else .ok (some t)

/-- `extract_with_deepseek` (lines 29-88): an unsupported target field
returns `None` before the API is called (lines 56-57); the try block's
exception is caught and converted to `None` (lines 86-88). The function is
total: no outcome of the external call escapes as an error. -/
def extract_with_deepseek (field : TargetField) (api : ApiOutcome) : Option String :=
  match field with
  | .other => none
  | _ =>
    match deepseekTryBody api with
    | .error _ => none
    | .ok v => v

/-- A product record as built by `extract_product_info`: the `title`,
`price` and `url` entries of the `product_info` dict (an absent entry is
`none`). -/
structure ProductInfo where
  title : Option String
  price : Option String
  url : Option String
deriving DecidableEq, Repr

/-- Result of the deterministic selector phase of `extract_product_info`
(lines 440-491) together with the page URL read at line 494. -/
structure DetResult where
  detTitle : Option String
  detPrice : Option String
  currentUrl : String
deriving DecidableEq, Repr

/-- Does some position of the string match the pattern `\$\d+`? Models
`re.search(r'\$\d+', price_str)` at line 516. -/
def hasDollarNum : List Char → Bool
  | '$' :: c :: rest => c.isDigit || hasDollarNum (c :: rest)
  | _ :: rest => hasDollarNum rest
  | [] => false

/-- The price validity check of lines 512-522: the price must be truthy,
match `\$\d+`, and not be the sentinel "$0.00". -/
def has_valid_price : Option String → Bool
  | none => false
  | some s => decide (s ≠ "") && hasDollarNum s.toList && decide (s ≠ "$0.00")

/-- `extract_product_info` (lines 419-536): the record starts from the
deterministic selector results and the current URL (lines 440-494); when the
URL is truthy, a missing title and then an invalid price are each retried
through the fallback gateway, whose `None` answers leave the record
unchanged (lines 496-534); the record is returned in every case. -/
def extract_product_info (det : DetResult) (titleApi priceApi : ApiOutcome) :
    ProductInfo :=
  let info0 : ProductInfo := ⟨det.detTitle, det.detPrice, some det.currentUrl⟩
  if pyTruthy info0.url then
    let info1 :=
      if pyTruthy info0.title then info0
      else
        match extract_with_deepseek .title titleApi with
        | some t => { info0 with title := some t }
        | none => info0
    let info2 :=
      if has_valid_price info1.price then info1
      else
        match extract_with_deepseek .price priceApi with
        | some p => { info1 with price := some p }
        | none => info1
    info2
  else info0

/-- C9: every failure mode of the fallback call — a raised exception, an
empty or choice-less response, an explicit "None" or empty answer, or an
unsupported target field — makes `extract_with_deepseek` return the
no-value result `none` instead of propagating an error, and whatever the
two fallback outcomes are, `extract_product_info` still returns a record
(carrying the page URL). -/
theorem C9_fallback_never_aborts :
    (∀ api, extract_with_deepseek .other api = none) ∧
      (∀ field, extract_with_deepseek field .raised = none) ∧
      (∀ field, extract_with_deepseek field .emptyResponse = none) ∧
      (∀ (field : TargetField) (s : String),
        pyLower (pyStrip s) = "none" ∨ pyStrip s = "" →
          extract_with_deepseek field (.content s) = none) ∧
      (∀ (det : DetResult) (titleApi priceApi : ApiOutcome),
        (extract_product_info det titleApi priceApi).url = some det.currentUrl) := by
  refine ⟨?_, ?_, ?_, ?_, ?_⟩
  · intro api; rfl
  · intro field; cases field <;> rfl
  · intro field; cases field <;> rfl
  · intro field s hs
    cases field <;> simp [extract_with_deepseek, deepseekTryBody, hs]
  · intro det titleApi priceApi
    simp only [extract_product_info]
    by_cases h0 : pyTruthy (some det.currentUrl) = true
    · simp only [h0, if_true]
      by_cases h1 : pyTruthy det.detTitle = true
      · simp only [h1, if_true]
        cases hpr : extract_with_deepseek .price priceApi <;>
          by_cases h2 : has_valid_price det.detPrice = true <;>
            simp [h2, hpr]
      · simp only [h1]
        cases hti : extract_with_deepseek .title titleApi <;>
          cases hpr : extract_with_deepseek .price priceApi <;>
            simp [hti, hpr] <;> split <;> rfl
    · simp [h0]

/-- C9 witness: the fallback theorem at concrete inputs: a raised call, an
explicit " None " answer and an unsupported field all give no value, and a
record is still produced (with its URL) when both fallback calls raise. -/
theorem C9_witness :
    extract_with_deepseek .price .raised = none ∧
      extract_with_deepseek .title (.content " None ") = none ∧
      extract_with_deepseek .other .emptyResponse = none ∧
      (extract_product_info ⟨none, none, "https://x/p"⟩ .raised .raised).url =
        some "https://x/p" :=
  ⟨C9_fallback_never_aborts.2.1 .price,
   C9_fallback_never_aborts.2.2.2.1 .title " None " (Or.inl (by decide)),
   C9_fallback_never_aborts.1 .emptyResponse,
   C9_fallback_never_aborts.2.2.2.2 ⟨none, none, "https://x/p"⟩ .raised .raised⟩

/-! Persistence guard of the session loop
(`ProductScraper.search_and_scrape`, shopping.py lines 654-669). -/

/-- The per-record persistence step of the session loop (lines 654-669): the
extracted record is appended to the per-site output only when
`product_info.get('url')` is truthy; otherwise the sink is unchanged and the
record is discarded. -/
def persist_step (sink : List ProductInfo) (info : ProductInfo) :
    List ProductInfo :=
  if pyTruthy info.url then sink ++ [info] else sink

/-- C6: a record lacking a url value (absent or empty) is never appended to
the persistence sink: anything in the sink after the step was either already
there or is the new record with a present, non-empty url. -/
theorem C6_no_url_never_persisted
    (sink : List ProductInfo) (info r : ProductInfo)
    (h : r ∈ persist_step sink info) :
    r ∈ sink ∨ (r = info ∧ ∃ s, info.url = some s ∧ s ≠ "") := by
  by_cases ht : pyTruthy info.url = true
  · simp only [persist_step, ht, if_true, List.mem_append, List.mem_singleton] at h
    rcases h with h | h
    · exact Or.inl h
    · refine Or.inr ⟨h, ?_⟩
      cases hu : info.url with
      | none => rw [hu] at ht; simp [pyTruthy] at ht
      | some s =>
        rw [hu] at ht
        simp only [pyTruthy, decide_eq_true_eq] at ht
        exact ⟨s, rfl, ht⟩
  · simp only [persist_step, if_neg ht] at h
    exact Or.inl h

/-- C6 witness: the guard theorem applied to an empty sink and a record with
a non-empty url, which the step appends. -/
theorem C6_witness :
    (⟨none, none, some "https://x/p"⟩ : ProductInfo) ∈ ([] : List ProductInfo) ∨
      ((⟨none, none, some "https://x/p"⟩ : ProductInfo) =
          ⟨none, none, some "https://x/p"⟩ ∧
        ∃ s, (ProductInfo.mk none none (some "https://x/p")).url = some s ∧ s ≠ "") :=
  C6_no_url_never_persisted [] ⟨none, none, some "https://x/p"⟩
    ⟨none, none, some "https://x/p"⟩ (by decide)

/-! Post-processing deduplication utility: `deduplicate_jsonl_file`
(deduplicate_jsonl.py lines 39-93). Parsed JSONL records are modelled as
association lists of JSON values. -/

/-- A JSON value as far as truthiness and equality are concerned. -/
inductive JVal where
  | jnull
  | jstr (s : String)
  | jnum (n : Int)
  | jbool (b : Bool)
deriving DecidableEq, Repr

/-- Python truthiness of a JSON value: `None`, `""`, `0` and `False` are
falsy. -/
def JVal.truthy : JVal → Bool
  | .jnull => false
  | .jstr s => decide (s ≠ "")
  | .jnum n => decide (n ≠ 0)
  | .jbool b => b

/-- A parsed JSONL record: a dict from field names to values. -/
abbrev JRecord := List (String × JVal)

/-- Python's `record.get(key_field)`: the first binding of the key, or
`None` when the key is absent. -/
def recordGet (r : JRecord) (k : String) : Option JVal :=
  (r.find? (fun p => decide (p.fst = k))).map (fun p => p.snd)

/-- Is `record.get(key_field)` truthy for this record? This is the guard
`if key and ...` of deduplicate_jsonl.py line 73. -/
def truthyKey (kf : String) (r : JRecord) : Bool :=
  match recordGet r kf with
  | none => false
  | some v => v.truthy

/-- The dedup loop of deduplicate_jsonl.py lines 70-74: each record's key is
looked up; a record whose key is falsy or already seen is dropped, the first
record of each truthy key is kept in input order (Python dicts preserve
insertion order, line 78). -/
def dedupGo (kf : String) : List JRecord → List JVal → List JRecord
  | [], _ => []
  | r :: rs, seen =>
    match recordGet r kf with
    | some v =>
      if v.truthy = true ∧ v ∉ seen then r :: dedupGo kf rs (v :: seen)
      else dedupGo kf rs seen
    | none => dedupGo kf rs seen

/-- The output record stream of `deduplicate_jsonl_file` (lines 70-81). -/
def deduplicate_records (kf : String) (records : List JRecord) : List JRecord :=
  dedupGo kf records []

/-- The counts reported by `deduplicate_jsonl_file` (lines 83-93): input
count, output count, and duplicates-removed computed as their difference. -/
def dedup_counts (kf : String) (records : List JRecord) : Nat × Nat × Nat :=
  (records.length, (deduplicate_records kf records).length,
    records.length - (deduplicate_records kf records).length)

lemma dedupGo_mem_truthy (kf : String) (rs : List JRecord) (seen : List JVal)
    (r : JRecord) (h : r ∈ dedupGo kf rs seen) : truthyKey kf r = true := by
  induction rs generalizing seen with
  | nil => simp [dedupGo] at h
  | cons r0 rs ih =>
    cases hg : recordGet r0 kf with
    | none =>
      simp only [dedupGo, hg] at h
      exact ih seen h
    | some v =>
      simp only [dedupGo, hg] at h
      by_cases hc : v.truthy = true ∧ v ∉ seen
      · rw [if_pos hc] at h
        rcases List.mem_cons.mp h with h1 | h1
        · subst h1
          simp [truthyKey, hg, hc.1]
        · exact ih (v :: seen) h1
      · rw [if_neg hc] at h
        exact ih seen h

lemma dedupGo_length_le (kf : String) (rs : List JRecord) (seen : List JVal) :
    (dedupGo kf rs seen).length ≤ (rs.filter (truthyKey kf)).length := by
  induction rs generalizing seen with
  | nil => simp [dedupGo]
  | cons r0 rs ih =>
    have hmono : (rs.filter (truthyKey kf)).length ≤
        ((r0 :: rs).filter (truthyKey kf)).length := by
      by_cases ht : truthyKey kf r0 = true <;> simp [List.filter_cons, ht]
    cases hg : recordGet r0 kf with
    | none =>
      simp only [dedupGo, hg]
      exact le_trans (ih seen) hmono
    | some v =>
      simp only [dedupGo, hg]
      by_cases hc : v.truthy = true ∧ v ∉ seen
      · rw [if_pos hc]
        have ht : truthyKey kf r0 = true := by simp [truthyKey, hg, hc.1]
        simp only [List.filter_cons, ht, if_true, List.length_cons]
        exact Nat.succ_le_succ (ih (v :: seen))
      · rw [if_neg hc]
        exact le_trans (ih seen) hmono

lemma length_filter_split {α : Type} (p : α → Bool) (l : List α) :
    (l.filter p).length + (l.filter (fun a => !(p a))).length = l.length := by
  induction l with
  | nil => rfl
  | cons a l ih =>
    by_cases h : p a = true <;> simp [List.filter_cons, h] <;> omega

/-- C10: every record whose key field is missing, empty or otherwise falsy
is omitted from the deduplicated output entirely (everything in the output
has a truthy key), and the reported duplicates-removed count (input minus
output) decomposes as the number of keyless records plus the number of true
duplicates among the keyed records — so it counts the keyless records even
though they duplicate nothing. -/
theorem C10_keyless_dropped_and_counted (kf : String) (records : List JRecord) :
    (∀ r ∈ deduplicate_records kf records, truthyKey kf r = true) ∧
      (dedup_counts kf records).2.2 =
        (records.filter (fun r => !(truthyKey kf r))).length +
          ((records.filter (truthyKey kf)).length -
            (deduplicate_records kf records).length) := by
  constructor
  · intro r hr
    exact dedupGo_mem_truthy kf records [] r hr
  · have h1 := dedupGo_length_le kf records []
    have h2 := length_filter_split (truthyKey kf) records
    simp only [dedup_counts, deduplicate_records] at *
    omega

/-- A three-record input stream: one record whose url key is empty (falsy),
then two records sharing the same url. -/
def recsKeyless : List JRecord :=
  [[("url", JVal.jstr "")], [("url", JVal.jstr "u")], [("url", JVal.jstr "u")]]

/-- C10 witness: on the concrete stream with one keyless record and one true
duplicate, the kept record has a truthy key and the reported
duplicates-removed count is 2 (the keyless record plus the duplicate). -/
theorem C10_witness :
    truthyKey "url" [("url", JVal.jstr "u")] = true ∧
      (dedup_counts "url" recsKeyless).2.2 = 2 :=
  ⟨(C10_keyless_dropped_and_counted "url" recsKeyless).1
      [("url", JVal.jstr "u")] (by decide),
   by
    have h := (C10_keyless_dropped_and_counted "url" recsKeyless).2
    rw [h]; decide⟩
